import Mathlib

/-!
Shallow embedding of beetmoverscript/script.py (the manifest-driven copy
orchestrator) and verification of the specification claims against it.

The embedding models the network and the scriptworker collaborators
(validate_artifact_url, retry_async, download_file, upload_file) as an
explicit oracle; every call the script makes to the outside world is
recorded in an event trace, and Python exception propagation is modelled
with Except: the first error value aborts the enclosing sequence exactly
as a raised exception aborts the enclosing loop.
-/

/-- Entry of the manifest mapping: `{ artifact, s3_key }`
(manifest['mapping'][locale][deliverable]). -/
structure Entry where
  artifact : String
  s3_key : String
deriving Repr, DecidableEq

/-- The candidates manifest consumed by beetmove_bits: top-level
artifact_base_url, s3_prefix_dated, s3_prefix_latest and the
locale -> deliverable -> Entry mapping (association lists model the
Python dicts; iteration order is the list order). -/
structure Manifest where
  artifact_base_url : String
  s3_prefix_dated : String
  s3_prefix_latest : String
  mapping : List (String × List (String × Entry))
deriving Repr

/-- context.config['s3']['credentials']. -/
structure S3Creds where
  id : String
  key : String
deriving Repr, DecidableEq

/-- context.config['s3']. -/
structure S3Config where
  bucket : String
  credentials : S3Creds
deriving Repr, DecidableEq

/-- The slice of context.config that script.py reads: work_dir, the s3
section, and the optional valid_artifact_task_ids key that
beetmove_bit defaults on a per-job copy. -/
structure Config where
  work_dir : String
  s3 : S3Config
  valid_artifact_task_ids : Option (List String)
deriving Repr, DecidableEq

/-- Python dict.setdefault for the valid_artifact_task_ids key: sets the
key to d only when it is absent. -/
def Config.setdefault_vatids (c : Config) (d : List String) : Config :=
  match c.valid_artifact_task_ids with
  | some _ => c
  | none => { c with valid_artifact_task_ids := some d }

/-- copy.deepcopy on a config value: in a pure value model the copy is the
value itself; what matters is that beetmove_bit applies setdefault to the
copy, never to context.config. -/
def deepcopy (c : Config) : Config := c

/-- The task object: script.py only reads task['dependencies']. -/
structure BmTask where
  dependencies : List String
deriving Repr, DecidableEq

/-- scriptworker Context: the mutable carrier of config and task that the
script threads through every call. -/
structure BmContext where
  config : Config
  task : BmTask
deriving Repr, DecidableEq

/-- First character is '/' (Python str.startswith('/')). -/
def strStartsWithSlash (s : String) : Bool :=
  match s.data with
  | [] => false
  | c :: _ => c == '/'

/-- Last character is '/' (Python str.endswith('/')). -/
def strEndsWithSlash (s : String) : Bool :=
  match s.data.getLast? with
  | some c => c == '/'
  | none => false

/-- posixpath.join for two components, as used at script.py lines 47-52
and 61: an absolute second component discards the first; otherwise the
components are concatenated with a single '/' separator. -/
def os_path_join (a b : String) : String :=
  if strStartsWithSlash b then b
  else if a.data.isEmpty || strEndsWithSlash a then a ++ b
  else a ++ "/" ++ b

/-- State of the mimetypes module: extension -> MIME type entries,
earlier entries shadowing later ones (add_type prepends). -/
def MimeState : Type := List (String × String)

/-- First matching entry for an extension. -/
def mimeLookup : List (String × String) → String → Option String
  | [], _ => none
  | (ext, ty) :: rest, e => if ext == e then some ty else mimeLookup rest e

/-- Characters strictly after the last '.', in reverse; none when no '.'
occurs. Helper for extension splitting. -/
def takeUntilDot : List Char → Option (List Char)
  | [] => none
  | c :: rest =>
    if c == '.' then some []
    else
      match takeUntilDot rest with
      | none => none
      | some l => some (c :: l)

/-- Extension of a path including the leading dot (posixpath.splitext):
"work/app.asc" -> ".asc", "noext" -> "". -/
def extOf (path : String) : String :=
  match takeUntilDot path.data.reverse with
  | none => ""
  | some revExt => String.mk ('.' :: revExt.reverse)

/-- mimetypes.guess_type: returns the (type, encoding) PAIR. script.py
passes this pair itself as the Content-Type (it never projects the first
component). Encoding inference is not modelled (none). -/
def guess_type (st : MimeState) (path : String) : Option String × Option String :=
  (mimeLookup st (extOf path), none)

/-- mimetypes.add_type(type, ext): registers one extension -> type entry. -/
def add_type (st : MimeState) (ty : String) (ext : String) : MimeState :=
  (ext, ty) :: st

/-- The platform default table installed by mimetypes.init(): a
representative subset of CPython's built-in types_map. Crucially it has
no entry for ".asc". -/
def default_mime_state : MimeState :=
  [(".txt", "text/plain"), (".exe", "application/octet-stream"),
   (".gz", "application/gzip"), (".xml", "text/xml")]

/-- Modelled from the spec: MIME_MAP (beetmoverscript.constants is not
under src/) is the static extension -> MIME table; the spec names ".asc"
as an extension the table maps (overriding the platform default, which
lacks it). -/
def MIME_MAP : List (String × String) := [(".asc", "text/plain")]

/-- setup_mimetypes from script.py line 119-121: mimetypes.init() resets
the module to the platform default table, and then the
map(lambda ..., MIME_MAP.items()) expression builds a LAZY iterator that
is never consumed, so mimetypes.add_type is never invoked and the table
stays at the platform default. -/
def setup_mimetypes (_st : MimeState) : MimeState :=
  default_mime_state

/-- What the body of setup_mimetypes evidently intends: init() followed by
add_type for every MIME_MAP entry (the lambda's body, were the map
consumed). -/
def setup_mimetypes_intended (_st : MimeState) : MimeState :=
  MIME_MAP.foldl (fun st p => add_type st p.2 p.1) default_mime_state

/-- Errors a run can raise. scriptWorkerTaskExc carries the exception's
exit_code (scriptworker's ScriptWorkerTaskException); download/upload
failures are the exception re-raised by retry_async on exhaustion. -/
inductive Err where
  | scriptWorkerTaskExc (exit_code : Nat)
  | downloadFailed (url : String)
  | uploadFailed (key : String)
deriving Repr, DecidableEq

/-- Externally observable calls script.py makes, in order. -/
inductive Ev where
  | validate (source : String) (allowlist : List String)
  | downloadAttempt (url : String) (path : String)
  | presign (bucket : String) (key : String)
      (contentType : Option String × Option String) (expires_in : Nat)
  | uploadAttempt (url : String) (key : String)
      (headers : Option String × Option String)
deriving Repr, DecidableEq

/-- The environment of external collaborators: scriptworker's
validate_artifact_url (an allowlist check returning the sanitized
relative path or raising), and per-attempt outcomes of the network
download/upload primitives, plus retry_async's attempt budget. -/
structure Oracle where
  validate_artifact_url : List String → String → Except Err String
  downloadAttempt : String → Nat → Bool
  uploadAttempt : String → Nat → Bool
  maxAttempts : Nat

/-- Attempts f at indices start, start+1, ... until success or the fuel is
spent; returns how many attempts were made and whether one succeeded. -/
def retryFrom (f : Nat → Bool) (start : Nat) : Nat → Nat × Bool
  | 0 => (0, false)
  | fuel + 1 =>
    if f start then (1, true)
    else
      let r := retryFrom f (start + 1) fuel
      (r.1 + 1, r.2)

/-- scriptworker.utils.retry_async (external collaborator): retries the
wrapped coroutine up to the attempt budget, succeeding at the first
successful attempt and re-raising after exhaustion. Backoff timing is
not modelled. -/
def retry_async (f : Nat → Bool) (attempts : Nat) : Nat × Bool :=
  retryFrom f 0 attempts

/-- download from script.py line 71-73: retry_async of
scriptworker's download_file; each attempt is a network fetch of url
into path. -/
def download (o : Oracle) (url : String) (path : String) :
    Except Err Unit × List Ev :=
  let r := retry_async (o.downloadAttempt url) o.maxAttempts
  ((if r.2 then Except.ok () else Except.error (Err.downloadFailed url)),
    (List.range r.1).map (fun _ => Ev.downloadAttempt url path))

/-- api_kwargs passed to boto3's generate_presigned_url: note ContentType
holds the guess_type PAIR, exactly as script.py line 80 writes it. -/
structure ApiKwargs where
  Bucket : String
  Key : String
  ContentType : Option String × Option String
deriving Repr, DecidableEq

/-- boto3 generate_presigned_url('put_object', api_kwargs, expires_in=30,
HttpMethod='PUT'): modelled as a deterministic function of the
credentials and the request parameters, so distinct keys give distinct
URLs and the same call gives the same URL. -/
def generate_presigned_url (creds : S3Creds) (kw : ApiKwargs)
    (_expires_in : Nat) : String :=
  "presigned://" ++ creds.id ++ "@" ++ kw.Bucket ++ "/" ++ kw.Key

/-- upload_to_s3 from script.py lines 76-90: builds api_kwargs and headers
from guess_type, requests one presigned URL with expires_in=30, then
retry_async of upload_file with that SAME url for every attempt. -/
def upload_to_s3 (o : Oracle) (st : MimeState) (config : Config)
    (s3_key : String) (path : String) : Except Err Unit × List Ev :=
  let api_kwargs : ApiKwargs :=
    { Bucket := config.s3.bucket, Key := s3_key,
      ContentType := guess_type st path }
  let headers := guess_type st path
  let creds := config.s3.credentials
  let url := generate_presigned_url creds api_kwargs 30
  let r := retry_async (o.uploadAttempt s3_key) o.maxAttempts
  ((if r.2 then Except.ok () else Except.error (Err.uploadFailed s3_key)),
    Ev.presign config.s3.bucket s3_key (guess_type st path) 30 ::
      (List.range r.1).map (fun _ => Ev.uploadAttempt url s3_key headers))

/-- The `for dest in destinations: await upload_to_s3(...)` loop of
script.py lines 67-68: sequential awaits, so a raised exception aborts
the loop and the remaining destinations are not attempted. -/
def uploadLoop (o : Oracle) (st : MimeState) (config : Config)
    (path : String) : List String → Except Err Unit × List Ev
  | [] => (Except.ok (), [])
  | dest :: rest =>
    let u := upload_to_s3 o st config dest path
    match u.1 with
    | Except.error e => (Except.error e, u.2)
    | Except.ok _ =>
      let r := uploadLoop o st config path rest
      (r.1, u.2 ++ r.2)

/-- The allowlist beetmove_bit hands to validate_artifact_url: the
deepcopy of context.config with valid_artifact_task_ids defaulted to
task['dependencies'] (script.py lines 57-58). -/
def beet_allowlist (ctx : BmContext) : List String :=
  (((deepcopy ctx.config).setdefault_vatids ctx.task.dependencies).valid_artifact_task_ids).getD []

/-- Outcome and event trace of beetmove_bit (script.py lines 56-68):
validate the source URL against the per-job config copy, then download
once to work_dir/rel_path, then upload to each destination in order;
each step's raised exception aborts the rest. -/
def beetmove_bit_run (o : Oracle) (st : MimeState) (ctx : BmContext)
    (source : String) (destinations : List String) :
    Except Err Unit × List Ev :=
  match o.validate_artifact_url (beet_allowlist ctx) source with
  | Except.error e => (Except.error e, [Ev.validate source (beet_allowlist ctx)])
  | Except.ok rel_path =>
    let abs_file_path := os_path_join ctx.config.work_dir rel_path
    let d := download o source abs_file_path
    match d.1 with
    | Except.error e =>
      (Except.error e, Ev.validate source (beet_allowlist ctx) :: d.2)
    | Except.ok _ =>
      let u := uploadLoop o st ctx.config abs_file_path destinations
      (u.1, Ev.validate source (beet_allowlist ctx) :: d.2 ++ u.2)

/-- beetmove_bit with explicit state passing: the body of the source
function contains no assignment to the context, so the context emerges
exactly as it entered. -/
def beetmove_bit (o : Oracle) (st : MimeState) (ctx : BmContext)
    (source : String) (destinations : List String) :
    BmContext × Except Err Unit × List Ev :=
  (ctx, beetmove_bit_run o st ctx source destinations)

/-- One derived copy job, as beetmove_bits builds it at lines 47-53:
source = join(artifact_base_url, artifact) and the two destinations
(dated, latest) = join of each prefix with s3_key. -/
structure CopyJob where
  source : String
  destinations : List String
deriving Repr, DecidableEq

/-- The job beetmove_bits derives from one manifest entry. -/
def jobOf (m : Manifest) (e : Entry) : CopyJob :=
  { source := os_path_join m.artifact_base_url e.artifact,
    destinations :=
      [os_path_join m.s3_prefix_dated e.s3_key,
       os_path_join m.s3_prefix_latest e.s3_key] }

/-- The manifest entries in the order the nested for loops visit them. -/
def entriesOf (m : Manifest) : List Entry :=
  m.mapping.flatMap (fun l => l.2.map (fun d => d.2))

/-- All derived copy jobs, one per (locale, deliverable) pair. -/
def jobsOf (m : Manifest) : List CopyJob :=
  (entriesOf m).map (jobOf m)

/-- Total number of (locale, deliverable) entries in the manifest. -/
def entryCount (m : Manifest) : Nat :=
  (m.mapping.map (fun l => l.2.length)).sum

/-- Sequential execution of the derived jobs, mirroring the nested
`for` loops of beetmove_bits with their sequential awaits: a raised
exception aborts the iteration. -/
def runJobs (o : Oracle) (st : MimeState) :
    BmContext → List CopyJob → BmContext × Except Err Unit × List Ev
  | ctx, [] => (ctx, Except.ok (), [])
  | ctx, j :: rest =>
    let b := beetmove_bit o st ctx j.source j.destinations
    match b.2.1 with
    | Except.error e => (b.1, Except.error e, b.2.2)
    | Except.ok _ =>
      let r := runJobs o st b.1 rest
      (r.1, r.2.1, b.2.2 ++ r.2.2)

/-- beetmove_bits from script.py lines 44-53: iterate every locale and
deliverable, derive the job, and await beetmove_bit for it. -/
def beetmove_bits (o : Oracle) (st : MimeState) (ctx : BmContext)
    (m : Manifest) : BmContext × Except Err Unit × List Ev :=
  runJobs o st ctx (jobsOf m)

/-- Modelled from the spec: the collaborators async_main calls before the
copy loop — get_task (scriptworker.client), validate_task_schema
(beetmoverscript.task, not under src/) and generate_candidates_manifest
(beetmoverscript.utils, not under src/). Each may raise a task-level
fatal error (ScriptWorkerTaskException) before any job executes. -/
structure TaskEnv where
  get_task : Config → Except Err BmTask
  validate_task_schema : BmTask → Except Err Unit
  generate_candidates_manifest : BmTask → Except Err Manifest

/-- async_main from script.py lines 28-41: parse the task, validate its
schema, generate the manifest, then move the bits. -/
def async_main (env : TaskEnv) (o : Oracle) (st : MimeState)
    (ctx : BmContext) : Except Err Unit :=
  match env.get_task ctx.config with
  | Except.error e => Except.error e
  | Except.ok task =>
    let ctx := { ctx with task := task }
    match env.validate_task_schema task with
    | Except.error e => Except.error e
    | Except.ok _ =>
      match env.generate_candidates_manifest task with
      | Except.error e => Except.error e
      | Except.ok manifest => (beetmove_bits o st ctx manifest).2.1

/-- Outcome at the process boundary. -/
inductive MainOutcome where
  | exitCode (c : Nat)
  | uncaught (e : Err)
deriving Repr, DecidableEq

/-- main from script.py lines 124-141: run async_main; a
ScriptWorkerTaskException is caught and turned into
sys.exit(exc.exit_code); normal completion falls through to process
exit 0; any other exception escapes uncaught. -/
def script_main (env : TaskEnv) (o : Oracle) (st : MimeState)
    (ctx : BmContext) : MainOutcome :=
  match async_main env o st ctx with
  | Except.ok _ => MainOutcome.exitCode 0
  | Except.error (Err.scriptWorkerTaskExc c) => MainOutcome.exitCode c
  | Except.error e => MainOutcome.uncaught e

/-- Is the event a download attempt? -/
def Ev.isDownloadAttempt : Ev → Bool
  | Ev.downloadAttempt _ _ => true
  | _ => false

/-- Is the event an upload attempt? -/
def Ev.isUploadAttempt : Ev → Bool
  | Ev.uploadAttempt _ _ _ => true
  | _ => false

/-- Is the event a presigned-URL request? -/
def Ev.isPresignReq : Ev → Bool
  | Ev.presign _ _ _ _ => true
  | _ => false

/-- The download attempts of a trace. -/
def downloadsIn (tr : List Ev) : List Ev := tr.filter Ev.isDownloadAttempt

/-- The upload attempts of a trace. -/
def uploadsIn (tr : List Ev) : List Ev := tr.filter Ev.isUploadAttempt

/-- The presigned-URL requests of a trace. -/
def presignsIn (tr : List Ev) : List Ev := tr.filter Ev.isPresignReq

/-- Destination keys of the upload attempts of a trace, in order. -/
def keysUploadedIn (tr : List Ev) : List String :=
  tr.filterMap (fun ev => match ev with
    | Ev.uploadAttempt _ k _ => some k
    | _ => none)

/-- Source URLs that were handed to validate_artifact_url, in order. -/
def sourcesValidatedIn (tr : List Ev) : List String :=
  tr.filterMap (fun ev => match ev with
    | Ev.validate s _ => some s
    | _ => none)

/-- Does a fresh presigned-URL request separate every pair of consecutive
upload attempts? (The behavior the spec mandates for retries after an
expiry failure: false whenever two upload attempts are adjacent in the
trace.) -/
def presignBetweenAttempts : List Ev → Bool
  | [] => true
  | [_] => true
  | a :: b :: rest =>
    (match a, b with
     | Ev.uploadAttempt _ _ _, Ev.uploadAttempt _ _ _ => false
     | _, _ => true) && presignBetweenAttempts (b :: rest)

/-- Concrete config fixture: work dir /w, bucket b. -/
def cfg0 : Config :=
  { work_dir := "/w",
    s3 := { bucket := "b", credentials := { id := "i", key := "sk" } },
    valid_artifact_task_ids := none }

/-- Concrete task fixture with a single upstream dependency. -/
def task0 : BmTask := { dependencies := ["task123"] }

/-- Concrete context fixture. -/
def ctx0 : BmContext := { config := cfg0, task := task0 }

/-- The manifest entry of the spec's end-to-end scenario. -/
def entry0 : Entry := { artifact := "build/app.exe", s3_key := "app.exe" }

/-- The manifest of the spec's end-to-end scenario. -/
def manifest0 : Manifest :=
  { artifact_base_url := "https://x/artifacts/task123",
    s3_prefix_dated := "dated/2024",
    s3_prefix_latest := "latest",
    mapping := [("en-US", [("installer", entry0)])] }

/-- Two-entry manifest: two locales, one deliverable each. -/
def entryA : Entry := { artifact := "a1", s3_key := "k1" }

/-- Second entry of the two-entry manifest. -/
def entryB : Entry := { artifact := "a2", s3_key := "k2" }

/-- Manifest deriving two copy jobs (sources base/a1 and base/a2). -/
def manifest2 : Manifest :=
  { artifact_base_url := "base", s3_prefix_dated := "d", s3_prefix_latest := "l",
    mapping := [("en-US", [("installer", entryA)]),
                ("de", [("installer", entryB)])] }

/-- Oracle on which every external call succeeds. -/
def oraAllOk : Oracle :=
  { validate_artifact_url := fun _ _ => Except.ok "rel",
    downloadAttempt := fun _ _ => true,
    uploadAttempt := fun _ _ => true,
    maxAttempts := 2 }

/-- Oracle whose allowlist validation always raises
ScriptWorkerTaskException (exit code 3). -/
def oraValFail : Oracle :=
  { validate_artifact_url := fun _ _ => Except.error (Err.scriptWorkerTaskExc 3),
    downloadAttempt := fun _ _ => true,
    uploadAttempt := fun _ _ => true,
    maxAttempts := 2 }

/-- Oracle on which every download attempt fails (retries exhaust). -/
def oraDownFail : Oracle :=
  { validate_artifact_url := fun _ _ => Except.ok "rel",
    downloadAttempt := fun _ _ => false,
    uploadAttempt := fun _ _ => true,
    maxAttempts := 2 }

/-- Oracle on which uploads to the dated key d/app.exe always fail and
every other call succeeds. -/
def oraC2 : Oracle :=
  { validate_artifact_url := fun _ _ => Except.ok "rel",
    downloadAttempt := fun _ _ => true,
    uploadAttempt := fun key _ => !(key == "d/app.exe"),
    maxAttempts := 2 }

/-- Oracle on which validation of source base/a1 raises and everything
else succeeds. -/
def oraC3 : Oracle :=
  { validate_artifact_url := fun _ s =>
      if s == "base/a1" then Except.error (Err.scriptWorkerTaskExc 3)
      else Except.ok "rel",
    downloadAttempt := fun _ _ => true,
    uploadAttempt := fun _ _ => true,
    maxAttempts := 2 }

/-- Oracle on which every first upload attempt fails (an expired URL,
say) and the second succeeds. -/
def oraC7 : Oracle :=
  { validate_artifact_url := fun _ _ => Except.ok "rel",
    downloadAttempt := fun _ _ => true,
    uploadAttempt := fun _ i => i != 0,
    maxAttempts := 2 }

/-- Environment in which task parsing, schema validation and manifest
generation all succeed with the scenario fixtures. -/
def envOk : TaskEnv :=
  { get_task := fun _ => Except.ok task0,
    validate_task_schema := fun _ => Except.ok (),
    generate_candidates_manifest := fun _ => Except.ok manifest0 }

/-- Environment in which schema validation raises
ScriptWorkerTaskException with exit code 3. -/
def envBad : TaskEnv :=
  { get_task := fun _ => Except.ok task0,
    validate_task_schema := fun _ => Except.error (Err.scriptWorkerTaskExc 3),
    generate_candidates_manifest := fun _ => Except.ok manifest0 }

/-- Entry whose artifact and s3_key are absolute paths. -/
def entryAbs : Entry := { artifact := "/abs/a.exe", s3_key := "/abs/k.exe" }

/- ------------------------------------------------------------------ -/
/- Helper lemmas -/

theorem filter_map_const_false {α β : Type} (p : β → Bool) (f : α → β)
    (l : List α) (h : ∀ a, p (f a) = false) : (l.map f).filter p = [] := by
  induction l with
  | nil => rfl
  | cons x xs ih => simp [List.filter_cons, h, ih]

theorem filterMap_map_const_none {α β γ : Type} (g : β → Option γ)
    (f : α → β) (l : List α) (h : ∀ a, g (f a) = none) :
    (l.map f).filterMap g = [] := by
  induction l with
  | nil => rfl
  | cons x xs ih => simp [List.filterMap_cons, h, ih]

theorem filterMap_map_const_some {α β γ : Type} (g : β → Option γ)
    (f : α → β) (l : List α) (c : γ) (h : ∀ a, g (f a) = some c) :
    (l.map f).filterMap g = List.replicate l.length c := by
  induction l with
  | nil => rfl
  | cons x xs ih => simp [List.filterMap_cons, h, ih, List.replicate_succ]

/- ------------------------------------------------------------------ -/
/- C1 -/

/-- C1: a source URL that fails allowlist validation makes beetmove_bit
raise before any network call for that job: the job's outcome is the
validation error, and the trace holds no download attempt and no upload
attempt. -/
theorem validation_precedes_download (o : Oracle) (st : MimeState)
    (ctx : BmContext) (source : String) (destinations : List String) (e : Err)
    (h : o.validate_artifact_url (beet_allowlist ctx) source = Except.error e) :
    (beetmove_bit o st ctx source destinations).2.1 = Except.error e ∧
    downloadsIn (beetmove_bit o st ctx source destinations).2.2 = [] ∧
    uploadsIn (beetmove_bit o st ctx source destinations).2.2 = [] := by
  simp [beetmove_bit, beetmove_bit_run, h, downloadsIn, uploadsIn,
        List.filter_cons, Ev.isDownloadAttempt, Ev.isUploadAttempt]

/-- Witness for C1 at the failing-validation oracle. -/
theorem validation_precedes_download_witness :
    (beetmove_bit oraValFail default_mime_state ctx0 "src" ["d1"]).2.1
        = Except.error (Err.scriptWorkerTaskExc 3) ∧
    downloadsIn (beetmove_bit oraValFail default_mime_state ctx0 "src" ["d1"]).2.2 = [] ∧
    uploadsIn (beetmove_bit oraValFail default_mime_state ctx0 "src" ["d1"]).2.2 = [] :=
  validation_precedes_download oraValFail default_mime_state ctx0 "src" ["d1"]
    (Err.scriptWorkerTaskExc 3) (by rfl)

/- ------------------------------------------------------------------ -/
/- C5 -/

/-- C5: when the download exhausts its retries the job fails with the
download error, and zero upload work happens: no presigned URL is
requested and no upload attempt appears in the trace. -/
theorem download_failure_no_uploads (o : Oracle) (st : MimeState)
    (ctx : BmContext) (source : String) (destinations : List String) (rel : String)
    (hv : o.validate_artifact_url (beet_allowlist ctx) source = Except.ok rel)
    (hd : (retry_async (o.downloadAttempt source) o.maxAttempts).2 = false) :
    (beetmove_bit o st ctx source destinations).2.1
        = Except.error (Err.downloadFailed source) ∧
    uploadsIn (beetmove_bit o st ctx source destinations).2.2 = [] ∧
    presignsIn (beetmove_bit o st ctx source destinations).2.2 = [] := by
  refine ⟨?_, ?_, ?_⟩ <;>
    simp [beetmove_bit, beetmove_bit_run, hv, download, hd, uploadsIn,
          presignsIn, List.filter_cons, Ev.isUploadAttempt, Ev.isPresignReq,
          filter_map_const_false]

/-- Witness for C5 at the failing-download oracle. -/
theorem download_failure_no_uploads_witness :
    (beetmove_bit oraDownFail default_mime_state ctx0 "src" ["d1", "d2"]).2.1
        = Except.error (Err.downloadFailed "src") ∧
    uploadsIn (beetmove_bit oraDownFail default_mime_state ctx0 "src" ["d1", "d2"]).2.2 = [] ∧
    presignsIn (beetmove_bit oraDownFail default_mime_state ctx0 "src" ["d1", "d2"]).2.2 = [] :=
  download_failure_no_uploads oraDownFail default_mime_state ctx0 "src" ["d1", "d2"]
    "rel" (by rfl) (by rfl)

/- ------------------------------------------------------------------ -/
/- C9 -/

/-- C9: executing a copy job leaves the shared config unchanged: the
valid_artifact_task_ids default becomes visible only in the per-job
allowlist (which falls back to the task's dependencies), never in
context.config. -/
theorem beetmove_bit_config_frame (o : Oracle) (st : MimeState)
    (ctx : BmContext) (source : String) (destinations : List String)
    (h : ctx.config.valid_artifact_task_ids = none) :
    (beetmove_bit o st ctx source destinations).1.config = ctx.config ∧
    beet_allowlist ctx = ctx.task.dependencies := by
  refine ⟨rfl, ?_⟩
  simp [beet_allowlist, deepcopy, Config.setdefault_vatids, h]

/-- Witness for C9: ctx0's config has no valid_artifact_task_ids. -/
theorem beetmove_bit_config_frame_witness :
    (beetmove_bit oraAllOk default_mime_state ctx0 "src" ["d1"]).1.config = ctx0.config ∧
    beet_allowlist ctx0 = ctx0.task.dependencies :=
  beetmove_bit_config_frame oraAllOk default_mime_state ctx0 "src" ["d1"] (by rfl)

/- ------------------------------------------------------------------ -/
/- C10 -/

/-- C10: a manifest entry whose artifact or s3_key begins with '/' makes
os.path.flatten discard the corresponding base entirely: the derived source
or destination equals the entry's value alone. -/
theorem absolute_entry_discards_base (m : Manifest) (e : Entry) :
    (strStartsWithSlash e.artifact = true → (jobOf m e).source = e.artifact) ∧
    (strStartsWithSlash e.s3_key = true →
      (jobOf m e).destinations = [e.s3_key, e.s3_key]) := by
  constructor
  · intro h; simp [jobOf, os_path_join, h]
  · intro h; simp [jobOf, os_path_join, h]

/-- Witness for C10 at an entry with absolute artifact and s3_key. -/
theorem absolute_entry_discards_base_witness :
    (jobOf manifest0 entryAbs).source = entryAbs.artifact ∧
    (jobOf manifest0 entryAbs).destinations = [entryAbs.s3_key, entryAbs.s3_key] :=
  ⟨(absolute_entry_discards_base manifest0 entryAbs).1 (by decide),
   (absolute_entry_discards_base manifest0 entryAbs).2 (by decide)⟩

/- ------------------------------------------------------------------ -/
/- C4 -/

/-- C4: the code does not deliver the MIME table's entry. setup_mimetypes
never registers MIME_MAP (the Python 3 map object is lazy and is dropped
unconsumed), so after setup an .asc upload carries Content-Type
(none, none) — the raw guess_type pair with no table match — although
MIME_MAP maps ".asc" and the registration the body intends would have
produced exactly the table's entry. -/
theorem asc_content_type_bug :
    mimeLookup MIME_MAP ".asc" = some "text/plain" ∧
    guess_type (setup_mimetypes default_mime_state) "/w/public/app.asc" = (none, none) ∧
    guess_type (setup_mimetypes_intended default_mime_state) "/w/public/app.asc"
        = (some "text/plain", none) ∧
    (upload_to_s3 oraAllOk (setup_mimetypes default_mime_state) cfg0
        "dated/app.asc" "/w/public/app.asc").2.head?
        = some (Ev.presign "b" "dated/app.asc" (none, none) 30) :=
  ⟨rfl, rfl, rfl, rfl⟩

/- ------------------------------------------------------------------ -/
/- C8 -/

/-- C8: process exit contract — a fully successful run exits with code 0,
and a ScriptWorkerTaskException that reaches main exits with that
exception's own exit code. -/
theorem exit_code_contract (env : TaskEnv) (o : Oracle) (st : MimeState)
    (ctx : BmContext) :
    (async_main env o st ctx = Except.ok () →
      script_main env o st ctx = MainOutcome.exitCode 0) ∧
    (∀ c, async_main env o st ctx = Except.error (Err.scriptWorkerTaskExc c) →
      script_main env o st ctx = MainOutcome.exitCode c) := by
  constructor
  · intro h; simp [script_main, h]
  · intro c h; simp [script_main, h]

/-- Witness for C8: a fully successful run and a schema-validation
failure with exit code 3. -/
theorem exit_code_contract_witness :
    script_main envOk oraAllOk default_mime_state ctx0 = MainOutcome.exitCode 0 ∧
    script_main envBad oraAllOk default_mime_state ctx0 = MainOutcome.exitCode 3 :=
  ⟨(exit_code_contract envOk oraAllOk default_mime_state ctx0).1 (by rfl),
   (exit_code_contract envBad oraAllOk default_mime_state ctx0).2 3 (by rfl)⟩

/- ------------------------------------------------------------------ -/
/- C6 -/

/-- C6: a manifest with N locale/deliverable entries derives exactly N
copy jobs; every job has exactly the two destinations dated-prefix/s3_key
and latest-prefix/s3_key and source artifact_base_url/artifact of some
manifest entry. -/
theorem jobs_shape (m : Manifest) :
    (jobsOf m).length = entryCount m ∧
    ∀ j ∈ jobsOf m, j.destinations.length = 2 ∧
      ∃ e ∈ entriesOf m,
        j.source = os_path_join m.artifact_base_url e.artifact ∧
        j.destinations = [os_path_join m.s3_prefix_dated e.s3_key,
                          os_path_join m.s3_prefix_latest e.s3_key] := by
  constructor
  · simp [jobsOf, entriesOf, entryCount, Function.comp_def]
  · intro j hj
    simp only [jobsOf, List.mem_map] at hj
    obtain ⟨e, he, rfl⟩ := hj
    exact ⟨rfl, e, he, rfl, rfl⟩

/-- Witness for C6 at the spec's end-to-end manifest. -/
theorem jobs_shape_witness :
    (jobsOf manifest0).length = entryCount manifest0 ∧
    ∃ e ∈ entriesOf manifest0,
      (jobOf manifest0 entry0).source
          = os_path_join manifest0.artifact_base_url e.artifact ∧
      (jobOf manifest0 entry0).destinations
          = [os_path_join manifest0.s3_prefix_dated e.s3_key,
             os_path_join manifest0.s3_prefix_latest e.s3_key] :=
  ⟨(jobs_shape manifest0).1,
   ((jobs_shape manifest0).2 (jobOf manifest0 entry0) (by decide)).2⟩

/- ------------------------------------------------------------------ -/
/- C2 -/

/-- C2 counterexample: with uploads to the dated key d/app.exe failing
and everything else succeeding, the job raises the dated-upload error
and the latest destination l/app.exe is never attempted — refuting the
claimed independence of the two destinations. -/
theorem dated_failure_blocks_latest :
    (beetmove_bit oraC2 default_mime_state ctx0 "src" ["d/app.exe", "l/app.exe"]).2.1
        = Except.error (Err.uploadFailed "d/app.exe") ∧
    "l/app.exe" ∉ keysUploadedIn
        (beetmove_bit oraC2 default_mime_state ctx0 "src" ["d/app.exe", "l/app.exe"]).2.2 :=
  ⟨rfl, by decide⟩

/-- C2 amended: the destination loop is sequential with exception
propagation — when the upload to the dated destination exhausts its
retries the job aborts with that upload error, the only destination with
upload attempts in the trace is the dated one, and the latest
destination is never attempted. -/
theorem dated_failure_aborts_job (o : Oracle) (st : MimeState)
    (ctx : BmContext) (source rel d1 d2 : String)
    (hv : o.validate_artifact_url (beet_allowlist ctx) source = Except.ok rel)
    (hd : (retry_async (o.downloadAttempt source) o.maxAttempts).2 = true)
    (hu : (retry_async (o.uploadAttempt d1) o.maxAttempts).2 = false) :
    (beetmove_bit o st ctx source [d1, d2]).2.1
        = Except.error (Err.uploadFailed d1) ∧
    keysUploadedIn (beetmove_bit o st ctx source [d1, d2]).2.2
        = List.replicate (retry_async (o.uploadAttempt d1) o.maxAttempts).1 d1 ∧
    (d2 ≠ d1 →
      d2 ∉ keysUploadedIn (beetmove_bit o st ctx source [d1, d2]).2.2) := by
  have hkeys : keysUploadedIn (beetmove_bit o st ctx source [d1, d2]).2.2
      = List.replicate (retry_async (o.uploadAttempt d1) o.maxAttempts).1 d1 := by
    simp [beetmove_bit, beetmove_bit_run, hv, download, hd, uploadLoop,
          upload_to_s3, hu, keysUploadedIn, List.filterMap_cons,
          List.filterMap_append, filterMap_map_const_none,
          filterMap_map_const_some]
  refine ⟨?_, hkeys, ?_⟩
  · simp [beetmove_bit, beetmove_bit_run, hv, download, hd, uploadLoop,
          upload_to_s3, hu]
  · intro hne
    rw [hkeys]
    simp [List.mem_replicate, hne]

/-- Witness for the amended C2 at the dated-upload-failing oracle. -/
theorem dated_failure_aborts_job_witness :
    (beetmove_bit oraC2 default_mime_state ctx0 "src" ["d/app.exe", "l/app.exe"]).2.1
        = Except.error (Err.uploadFailed "d/app.exe") ∧
    keysUploadedIn (beetmove_bit oraC2 default_mime_state ctx0 "src"
          ["d/app.exe", "l/app.exe"]).2.2
        = List.replicate (retry_async (oraC2.uploadAttempt "d/app.exe")
            oraC2.maxAttempts).1 "d/app.exe" ∧
    ("l/app.exe" ≠ "d/app.exe" →
      "l/app.exe" ∉ keysUploadedIn (beetmove_bit oraC2 default_mime_state ctx0 "src"
          ["d/app.exe", "l/app.exe"]).2.2) :=
  dated_failure_aborts_job oraC2 default_mime_state ctx0 "src" "rel"
    "d/app.exe" "l/app.exe" (by rfl) (by rfl) (by rfl)

/- ------------------------------------------------------------------ -/
/- C3 -/

/-- C3 counterexample: in a two-job manifest whose first job fails
validation, beetmove_bits raises that error and never attempts the
second job — the second source is never even validated, and no
aggregate report is produced. -/
theorem job_failure_stops_run :
    (beetmove_bits oraC3 default_mime_state ctx0 manifest2).2.1
        = Except.error (Err.scriptWorkerTaskExc 3) ∧
    sourcesValidatedIn (beetmove_bits oraC3 default_mime_state ctx0 manifest2).2.2
        = ["base/a1"] :=
  ⟨rfl, rfl⟩

/-- C3 amended: the job loop short-circuits at the first failing job: for
a job list pre ++ j :: post where every job of pre succeeds and j fails
with e, the run raises e and its trace is exactly the traces of pre
followed by j's trace — nothing of post is attempted. -/
theorem run_short_circuits (o : Oracle) (st : MimeState) (ctx : BmContext)
    (pre : List CopyJob) (j : CopyJob) (post : List CopyJob) (e : Err)
    (hpre : ∀ x ∈ pre,
      (beetmove_bit_run o st ctx x.source x.destinations).1 = Except.ok ())
    (hj : (beetmove_bit_run o st ctx j.source j.destinations).1 = Except.error e) :
    (runJobs o st ctx (pre ++ j :: post)).2.1 = Except.error e ∧
    (runJobs o st ctx (pre ++ j :: post)).2.2 =
      (pre.map (fun x =>
          (beetmove_bit_run o st ctx x.source x.destinations).2)).flatten
        ++ (beetmove_bit_run o st ctx j.source j.destinations).2 := by
  induction pre with
  | nil => simp [runJobs, beetmove_bit, hj]
  | cons x rest ih =>
    have hx := hpre x (by simp)
    have ih2 := ih (fun y hy => hpre y (by simp [hy]))
    simp [runJobs, beetmove_bit, hx, ih2.1, ih2.2]

/-- Witness for the amended C3: an empty prefix, a failing job, one
pending job behind it. -/
theorem run_short_circuits_witness :
    (runJobs oraValFail default_mime_state ctx0
        ([] ++ (⟨"s", ["d1"]⟩ : CopyJob) :: [(⟨"s2", ["d2"]⟩ : CopyJob)])).2.1
        = Except.error (Err.scriptWorkerTaskExc 3) ∧
    (runJobs oraValFail default_mime_state ctx0
        ([] ++ (⟨"s", ["d1"]⟩ : CopyJob) :: [(⟨"s2", ["d2"]⟩ : CopyJob)])).2.2 =
      (([] : List CopyJob).map (fun x =>
          (beetmove_bit_run oraValFail default_mime_state ctx0
            x.source x.destinations).2)).flatten
        ++ (beetmove_bit_run oraValFail default_mime_state ctx0 "s" ["d1"]).2 :=
  run_short_circuits oraValFail default_mime_state ctx0 []
    ⟨"s", ["d1"]⟩ [⟨"s2", ["d2"]⟩] (Err.scriptWorkerTaskExc 3)
    (by intro x hx; cases hx) (by rfl)

/- ------------------------------------------------------------------ -/
/- C7 -/

/-- C7 counterexample: with the first upload attempt failing (an expired
URL, say) and the second succeeding, upload_to_s3 requests one presigned
URL and then reuses that SAME URL for both attempts — no re-request
separates the failed attempt from the next one, refuting the claimed
re-request-on-expiry retry behavior. -/
theorem url_reuse_across_retries :
    (upload_to_s3 oraC7 default_mime_state cfg0 "k" "p").2 =
      [Ev.presign "b" "k" (none, none) 30,
       Ev.uploadAttempt "presigned://i@b/k" "k" (none, none),
       Ev.uploadAttempt "presigned://i@b/k" "k" (none, none)] ∧
    presignBetweenAttempts
        (upload_to_s3 oraC7 default_mime_state cfg0 "k" "p").2 = false ∧
    (upload_to_s3 oraC7 default_mime_state cfg0 "k" "p").1 = Except.ok () :=
  ⟨rfl, rfl, rfl⟩

/-- C7 amended: upload_to_s3 requests the presigned PUT URL exactly once
per destination, with expires_in 30, before that destination's attempt
series; every upload attempt of the series carries the URL generated
from that destination's own parameters (so nothing is shared across
destinations or jobs) — but retries reuse this one URL rather than
re-requesting it. -/
theorem presign_once_per_destination (o : Oracle) (st : MimeState)
    (config : Config) (s3_key path : String) :
    presignsIn (upload_to_s3 o st config s3_key path).2
        = [Ev.presign config.s3.bucket s3_key (guess_type st path) 30] ∧
    (upload_to_s3 o st config s3_key path).2.head?
        = some (Ev.presign config.s3.bucket s3_key (guess_type st path) 30) ∧
    (∀ ev ∈ (upload_to_s3 o st config s3_key path).2,
      Ev.isUploadAttempt ev = true →
      ev = Ev.uploadAttempt
            (generate_presigned_url config.s3.credentials
              { Bucket := config.s3.bucket, Key := s3_key,
                ContentType := guess_type st path } 30)
            s3_key (guess_type st path)) := by
  refine ⟨?_, ?_, ?_⟩
  · simp [upload_to_s3, presignsIn, List.filter_cons, Ev.isPresignReq,
          filter_map_const_false, Ev.isUploadAttempt]
  · simp [upload_to_s3]
  · intro ev hev hup
    simp only [upload_to_s3, List.mem_cons, List.mem_map] at hev
    rcases hev with h | h
    · subst h; simp [Ev.isUploadAttempt] at hup
    · obtain ⟨i, _, rfl⟩ := h
      rfl

/-- Witness for the amended C7: the single presigned URL of the concrete
run, applied to its own second upload attempt. -/
theorem presign_once_per_destination_witness :
    Ev.uploadAttempt "presigned://i@b/k" "k" (none, none)
      = Ev.uploadAttempt
          (generate_presigned_url cfg0.s3.credentials
            { Bucket := cfg0.s3.bucket, Key := "k",
              ContentType := guess_type default_mime_state "p" } 30)
          "k" (guess_type default_mime_state "p") :=
  (presign_once_per_destination oraC7 default_mime_state cfg0 "k" "p").2.2
    (Ev.uploadAttempt "presigned://i@b/k" "k" (none, none))
    (by decide) (by decide)
